import Mathlib

/-
Shallow embedding of the coordination core of the AgentMail_System repository
(src/agent_coordinator.py, with constants from src/config.py and the peer RPC
endpoint from src/webhook_server.py), together with theorems settling the
frozen claims about it.

Conventions of the embedding:
  * Python ints are Int (or Nat where the source only ever produces
    non-negative values), Python floats that carry times and loads are Rat.
  * Python dicts used as keyed tables are association lists that preserve
    insertion order, exactly as Python 3.7+ dicts do; dict assignment is
    insertA (replace in place, else append), dict lookup with a default is
    lookupA plus an Option match.
  * Fallible Python code (AttributeError from reading .status on a list,
    TypeError from comparing None with int or iterating a dataclass) is
    embedded with Except PyErr.
  * asyncio interleaving is made explicit: propose_value suspends at the
    await between its Prepare gather and its Accept gather, so the proposer
    is split into sendPrepare and proposeAfterPrepare, and proposeValue is
    their sequential composition. The set of peers whose replies arrive
    before the deadline is an explicit reach list; a timed-out peer simply
    contributes no reply, as in the source.
-/

namespace AgentMail

deriving instance DecidableEq for Except

/-! ## Basic data model (agent_coordinator.py lines 24-74) -/

/-- AgentStatus enum (lines 24-28). -/
inductive AgentStatus
  | healthy
  | suspected
  | failed
  | recovering
deriving DecidableEq

/-- MessageType enum (lines 30-36). -/
inductive MsgType
  | prepare
  | promise
  | accept
  | accepted
  | heartbeat
  | stateSync
deriving DecidableEq

/-- ConversationState dataclass (lines 62-74). The context dict carries
string keys and string payloads in every call site of the coordinator;
the replicas field is a Python set, embedded as a duplicate-free list. -/
structure ConversationState where
  threadId : String
  assignedAgent : String
  context : List (String × String)
  lastUpdated : Rat
  version : Nat := 1
  replicas : List String := []
deriving DecidableEq

/-- Values carried by Paxos messages: assignment proposals and state-sync
payloads are Python objects; the two shapes that occur are plain strings
(stand-ins for the proposal payload) and serialized ConversationState
records (the STATE_SYNC payload). -/
inductive PyValue
  | str (s : String)
  | conv (c : ConversationState)
deriving DecidableEq

/-- Python truthiness for the two embedded value shapes: a string is falsy
iff empty; an asdict of a dataclass is a non-empty dict, hence truthy. -/
def truthy : PyValue → Bool
  | .str s => if s = "" then false else true
  | .conv _ => true

/-- Python or: a or b evaluates to a when a is truthy, else to b.
Used by propose_value line 111 (promise.accepted_value or value). -/
def pyOrVal (a : Option PyValue) (b : PyValue) : PyValue :=
  match a with
  | none => b
  | some v => if truthy v then v else b

/-- Exceptions the embedded code can raise. -/
inductive PyErr
  | typeError
  | attributeError
deriving DecidableEq

/-- PaxosMessage dataclass (lines 38-48). Optional fields default to None. -/
structure PaxosMessage where
  msgType : MsgType
  proposalId : Int
  value : Option PyValue := none
  promisedId : Option Int := none
  acceptedId : Option Int := none
  acceptedValue : Option PyValue := none
  sender : String := ""
  timestamp : Rat := 0
deriving DecidableEq

/-- Acceptor fields of PaxosCoordinator (lines 82-85): promised_id = -1,
accepted_id = -1, accepted_value = None initially. -/
structure AcceptorState where
  promisedId : Int := -1
  acceptedId : Int := -1
  acceptedValue : Option PyValue := none
deriving DecidableEq

def initialAcceptor : AcceptorState := {}

/-! ## Association-list helpers for Python dicts -/

/-- Python dict lookup: d.get(k) as an Option. -/
def lookupA {α : Type} (k : String) : List (String × α) → Option α
  | [] => none
  | (k1, v) :: t => if k1 = k then some v else lookupA k t

/-- Python dict assignment d[k] = v: replace in place, else append,
preserving insertion order. -/
def insertA {α : Type} (k : String) (v : α) : List (String × α) → List (String × α)
  | [] => [(k, v)]
  | (k1, v1) :: t => if k1 = k then (k, v) :: t else (k1, v1) :: insertA k v t

/-! ## Paxos acceptor (agent_coordinator.py lines 178-207) -/

/-- PaxosCoordinator handle prepare (lines 187-198). A rejection is encoded
by the source as a PROMISE-typed message with promised_id = -1 and the
accepted fields left at None. -/
def handleAcceptorPrepare (st : AcceptorState) (m : PaxosMessage) :
    AcceptorState × PaxosMessage :=
  if m.proposalId > st.promisedId then
    ({ st with promisedId := m.proposalId },
     { msgType := .promise, proposalId := m.proposalId,
       promisedId := some m.proposalId,
       acceptedId := some st.acceptedId,
       acceptedValue := st.acceptedValue })
  else
    (st, { msgType := .promise, proposalId := m.proposalId, promisedId := some (-1) })

/-- PaxosCoordinator handle accept (lines 200-207). A rejection is encoded
by the source as an ACCEPTED-typed message with accepted_id = -1; a genuine
acceptance leaves accepted_id at None. -/
def handleAcceptorAccept (st : AcceptorState) (m : PaxosMessage) :
    AcceptorState × PaxosMessage :=
  if m.proposalId ≥ st.promisedId then
    ({ st with promisedId := m.proposalId, acceptedId := m.proposalId,
               acceptedValue := m.value },
     { msgType := .accepted, proposalId := m.proposalId })
  else
    (st, { msgType := .accepted, proposalId := m.proposalId, acceptedId := some (-1) })

/-- PaxosCoordinator handle paxos message (lines 178-185): dispatches PREPARE
and ACCEPT; every other message type, STATE_SYNC included, falls through and
returns None without touching any state. -/
def handlePaxosMessage (st : AcceptorState) (m : PaxosMessage) :
    AcceptorState × Option PaxosMessage :=
  match m.msgType with
  | .prepare =>
    let r := handleAcceptorPrepare st m
    (r.1, some r.2)
  | .accept =>
    let r := handleAcceptorAccept st m
    (r.1, some r.2)
  | _ => (st, none)

/-! ## Paxos proposer (agent_coordinator.py lines 88-157) -/

/-- The cluster of acceptors, one AcceptorState per node id. -/
def World := List (String × AcceptorState)

/-- PAXOS_MAJORITY_SIZE (config.py line 26): len(CLUSTER_NODES) // 2 + 1. -/
def paxosMajority (cluster : List String) : Nat := cluster.length / 2 + 1

/-- Generate proposal id (lines 88-93): int(time.time() * 1000) * N +
hash(node_id) % N, where N is the cluster size. The previous value of
self.proposal_id is overwritten and never read, so the issued id depends
only on the wall clock and the node hash. -/
def generateProposalId (clusterSize nodeHash nowMs : Int)
    (lastProposalId : Int) : Int × Int :=
  let pid := nowMs * clusterSize + Int.emod nodeHash clusterSize
  (pid, pid)

/-- Fan a PREPARE out to the peers whose replies arrive (send prepare,
lines 122-139): each responding acceptor handles the message, and every
reply whose msg_type is PROMISE is appended to the promises list, with no
check of the promised_id sign. A peer absent from reach timed out and
contributes nothing. -/
def sendPrepare (reach : List String) (w : World) (pid : Int) :
    World × List PaxosMessage :=
  reach.foldl
    (fun acc node =>
      match lookupA node acc.1 with
      | none => acc
      | some st =>
        let r := handlePaxosMessage st { msgType := .prepare, proposalId := pid }
        match r.2 with
        | some reply =>
          if reply.msgType = .promise then (insertA node r.1 acc.1, acc.2 ++ [reply])
          else (insertA node r.1 acc.1, acc.2)
        | none => (insertA node r.1 acc.1, acc.2))
    (w, [])

/-- Fan an ACCEPT out to the peers whose replies arrive (send accept,
lines 141-157): every reply whose msg_type is ACCEPTED is appended to the
acceptances list, with no check of the accepted_id sign. -/
def sendAccept (reach : List String) (w : World) (pid : Int) (v : PyValue) :
    World × List PaxosMessage :=
  reach.foldl
    (fun acc node =>
      match lookupA node acc.1 with
      | none => acc
      | some st =>
        let r := handlePaxosMessage st
          { msgType := .accept, proposalId := pid, value := some v }
        match r.2 with
        | some reply =>
          if reply.msgType = .accepted then (insertA node r.1 acc.1, acc.2 ++ [reply])
          else (insertA node r.1 acc.1, acc.2)
        | none => (insertA node r.1 acc.1, acc.2))
    (w, [])

/-- The value-selection loop of propose_value (lines 105-111). Each
iteration evaluates promise.accepted_id > max_accepted_id; a rejection
promise carries accepted_id None, and comparing None with an int raises
TypeError in Python 3. -/
def chooseValueGo (v : PyValue) :
    List PaxosMessage → Int → PyValue → Except PyErr PyValue
  | [], _, chosen => .ok chosen
  | p :: rest, maxAcc, chosen =>
    match p.acceptedId with
    | none => .error .typeError
    | some aid =>
      if aid > maxAcc then chooseValueGo v rest aid (pyOrVal p.acceptedValue v)
      else chooseValueGo v rest maxAcc chosen

def chooseValue (promises : List PaxosMessage) (v : PyValue) : Except PyErr PyValue :=
  chooseValueGo v promises (-1) v

/-- The tail of propose_value after the Prepare gather has returned
(lines 101-120): quorum check on the raw promises list, value selection,
Accept fan-out, quorum check on the raw acceptances list. This is the
continuation that runs when the coroutine resumes at its second await. -/
def proposeAfterPrepare (majority : Nat) (reachA : List String) (w : World)
    (pid : Int) (promises : List PaxosMessage) (v : PyValue) :
    World × Except PyErr (Bool × Option PyValue) :=
  if promises.length < majority then (w, .ok (false, none))
  else
    match chooseValue promises v with
    | .error e => (w, .error e)
    | .ok chosen =>
      let r := sendAccept reachA w pid chosen
      if r.2.length < majority then (r.1, .ok (false, none))
      else (r.1, .ok (true, some chosen))

/-- propose_value (lines 95-120) for a given proposal id: Prepare fan-out to
the peers reachable in phase 1, then the continuation above with the peers
reachable in phase 2. -/
def proposeValue (majority : Nat) (reachP reachA : List String) (w : World)
    (pid : Int) (v : PyValue) : World × Except PyErr (Bool × Option PyValue) :=
  let r := sendPrepare reachP w pid
  proposeAfterPrepare majority reachA r.1 pid r.2 v

/-- The /paxos endpoint of webhook_server.py (lines 79-109): parses the
message and hands it to coordinator.paxos.handle_paxos_message; the
conversation store is not touched on any path of the endpoint. -/
def receivePaxos (acc : AcceptorState) (convs : List (String × ConversationState))
    (m : PaxosMessage) :
    (AcceptorState × List (String × ConversationState)) × Option PaxosMessage :=
  let r := handlePaxosMessage acc m
  ((r.1, convs), r.2)

/-! ## String helpers for the email classifier -/

/-- Character-list version of: the first list leads the second. -/
def strLeads : List Char → List Char → Bool
  | [], _ => true
  | _ :: _, [] => false
  | a :: as, b :: bs => a == b && strLeads as bs

/-- Character-list version of Python substring membership. -/
def strFind (sub : List Char) : List Char → Bool
  | [] => sub.isEmpty
  | b :: bs => strLeads sub (b :: bs) || strFind sub bs

/-- Python: sub in s. -/
def pyContains (s sub : String) : Bool := strFind sub.toList s.toList

/-- Python str.lower, restricted to the per-character lowering that the
keyword checks of the classifier exercise. -/
def strLower (s : String) : String := String.mk (s.toList.map Char.toLower)

/-! ## DistributedAgentCoordinator data (agent_coordinator.py lines 50-60, 209-220) -/

/-- AgentInfo dataclass (lines 50-60). -/
structure AgentInfo where
  nodeId : String
  host : String := ""
  port : Int := 0
  status : AgentStatus
  specializations : List String := []
  load : Rat := 0
  lastHeartbeat : Rat := 0
  failureCount : Nat := 0
deriving DecidableEq

/-- A value of the self.agents dict. The dict is declared as
Dict[str, List[str]] mapping specializations to agent-id lists, and is
initialized that way (lines 214, 256-260), but register self and
handle heartbeat also store AgentInfo records under node-id keys
(lines 232, 499), so the table is heterogeneous. -/
inductive AgentsEntry
  | ids (l : List String)
  | info (i : AgentInfo)
deriving DecidableEq

/-- One value of the self.agent_health dict: a plain Python dict with the
keys last_heartbeat, status (a string), specializations, load and
failure_count, each possibly absent and read with .get defaults. -/
structure HealthEntry where
  lastHeartbeat : Rat := 0
  status : Option String := none
  specializations : List String := []
  load : Option Rat := none
  failureCount : Nat := 0
deriving DecidableEq

/-- The mutable fields of DistributedAgentCoordinator that the embedded
operations read and write (lines 212-220). -/
structure CoordState where
  nodeId : String
  agents : List (String × AgentsEntry)
  agentHealth : List (String × HealthEntry)
  conversations : List (String × ConversationState)
deriving DecidableEq

/-! ## Assignment dispatcher (agent_coordinator.py lines 279-414) -/

/-- classify email (lines 324-334): keyword checks on the lowercased
content; the sender parameter is accepted and unused, as in the source. -/
def classifyEmail (content sender : String) : String :=
  let c := strLower content
  if ["billing", "payment", "invoice", "charge"].any (fun w => pyContains c w) then
    "support"
  else if ["price", "demo", "sales", "purchase"].any (fun w => pyContains c w) then
    "sales"
  else
    "general"

/-- get available agents (lines 336-350): self.agents.get(specialization, [])
then filter by agent_health status healthy. When the entry under the
specialization key is an AgentInfo record rather than a list, the for loop
would iterate a dataclass and raise TypeError. -/
def getAvailableAgents (st : CoordState) (spec : String) : Except PyErr (List String) :=
  match lookupA spec st.agents with
  | none => .ok []
  | some (.ids l) =>
    .ok (l.filter fun id =>
      ((lookupA id st.agentHealth).bind (fun e => e.status)) == some "healthy")
  | some (.info _) => .error .typeError

/-- The load key of an agent id: agent_health.get(id, {}).get(load, 1.0)
(line 358). -/
def loadKey (st : CoordState) (id : String) : Rat :=
  match lookupA id st.agentHealth with
  | none => 1
  | some e => e.load.getD 1

/-- Python min over a non-empty candidate list keyed by loadKey; min keeps
the first element attaining the minimum, so a later candidate replaces the
current best only when its key is strictly smaller (line 358). -/
def minByLoad (st : CoordState) (c : String) (cs : List String) : String :=
  cs.foldl (fun best x => if loadKey st x < loadKey st best then x else best) c

/-- select best agent (lines 352-359): None on an empty candidate list,
else the minimum-load candidate. -/
def selectBestAgent (st : CoordState) : List String → Option String
  | [] => none
  | c :: cs => some (minByLoad st c cs)

/-- The healthy-node comprehension of select replica nodes (lines 386-389):
it reads agent.status on every value of self.agents, and raises
AttributeError at the first list-valued entry, since Python lists have no
status attribute. -/
def healthyAgentNodes : List (String × AgentsEntry) → Except PyErr (List String)
  | [] => .ok []
  | (_, .ids _) :: _ => .error .attributeError
  | (node, .info i) :: rest =>
    match healthyAgentNodes rest with
    | .error e => .error e
    | .ok tl => .ok (if i.status = .healthy then node :: tl else tl)

/-- Python slice l[:k], including the negative-k case (all but the last
-k elements). -/
def pySlice (k : Int) (l : List String) : List String :=
  if 0 ≤ k then l.take k.toNat
  else l.take ((l.length : Int) + k).toNat

/-- select replica nodes (lines 384-396): healthy nodes from self.agents,
then self followed by the first count - 1 other healthy nodes in table
order. -/
def selectReplicaNodes (st : CoordState) (count : Int) : Except PyErr (List String) :=
  match healthyAgentNodes st.agents with
  | .error e => .error e
  | .ok healthy =>
    let others := healthy.filter (fun n => n != st.nodeId)
    .ok (st.nodeId :: pySlice (count - 1) others)

/-- STATE_REPLICATION_FACTOR (config.py line 43), default 3. -/
def stateReplicationFactor : Int := 3

/-- update conversation state (lines 361-382): build the new
ConversationState, select the replica set, bump the version to old + 1 when
an entry for the thread exists (else leave the dataclass default 1), and
replace the entry. The trailing replicate call pushes STATE_SYNC messages
whose receivers ignore them (handlePaxosMessage falls through), so it has
no effect on any store. The Python set of replicas is embedded as a
duplicate-free list. -/
def updateConversationState (rf : Int) (st : CoordState) (threadId agentId : String)
    (ctx : List (String × String)) (now : Rat) : Except PyErr CoordState :=
  match selectReplicaNodes st rf with
  | .error e => .error e
  | .ok reps =>
    let version : Nat :=
      match lookupA threadId st.conversations with
      | some old => old.version + 1
      | none => 1
    let s : ConversationState :=
      { threadId := threadId, assignedAgent := agentId, context := ctx,
        lastUpdated := now, version := version, replicas := reps.eraseDups }
    .ok { st with conversations := insertA threadId s st.conversations }

/-- The load bump at the end of assign agent for email (lines 315-319):
when the assigned agent has a health entry, its load becomes
get(load, 0.1) + 0.1; every other entry is untouched. -/
def incrementLoad (st : CoordState) (agentId : String) : CoordState :=
  match lookupA agentId st.agentHealth with
  | none => st
  | some e =>
    { st with agentHealth :=
        insertA agentId { e with load := some (e.load.getD (1 / 10) + 1 / 10) } st.agentHealth }

/-- assign agent for email (lines 279-322): classify, gather healthy
candidates, return None on an empty candidate set, otherwise pick the
minimum-load candidate. The assignment proposal dict built at lines 296-301
is discarded: line 304 sets assigned_agent to the locally selected
candidate without ever invoking propose_value, so the function takes no
consensus state at all. It then updates the conversation state (which
selects replicas and can raise) and bumps the assigned agent's load. -/
def assignAgentForEmail (rf : Int) (st : CoordState)
    (threadId content sender : String) (now : Rat) :
    Except PyErr (Option String × CoordState) :=
  let spec := classifyEmail content sender
  match getAvailableAgents st spec with
  | .error e => .error e
  | .ok [] => .ok (none, st)
  | .ok (c :: cs) =>
    let selected := minByLoad st c cs
    match updateConversationState rf st threadId selected
        [("email_content", content), ("sender", sender), ("specialization", spec)] now with
    | .error e => .error e
    | .ok st1 => .ok (some selected, incrementLoad st1 selected)

/-! ## Failure detector (agent_coordinator.py lines 422-455, config.py lines 31-32) -/

/-- The per-entry body of check agent health (lines 430-455) for a peer
other than self: on a missed window (now - last_heartbeat strictly above
2 * interval) bump failure_count and move to failed (at threshold, when not
already failed) or suspected; on a heartbeat within the window, reset
failure_count to 0 and set status healthy whenever failure_count was
positive, else leave the entry untouched. -/
def checkHealthEntry (interval threshold : Nat) (now : Rat) (e : HealthEntry) :
    HealthEntry :=
  if now - e.lastHeartbeat > 2 * (interval : Rat) then
    let fc := e.failureCount + 1
    if fc ≥ threshold then
      if e.status ≠ some "failed" then
        { e with failureCount := fc, status := some "failed" }
      else
        { e with failureCount := fc }
    else
      { e with failureCount := fc, status := some "suspected" }
  else
    if e.failureCount > 0 then
      { e with failureCount := 0, status := some "healthy" }
    else
      e

/-! ## Concrete scenarios -/

attribute [local semireducible] Rat.mul Rat.inv Rat.add Rat.sub Rat.ofScientific

def clusterABC : List String := ["a", "b", "c"]

/-- A three-node cluster with all acceptors in their initial state. -/
def freshWorld3 : World :=
  [("a", initialAcceptor), ("b", initialAcceptor), ("c", initialAcceptor)]

/-- Dueling proposers, phase interleaving at the await of propose_value.
Proposer two prepares proposal 5 at nodes a and b, then suspends. -/
def duelPrep := sendPrepare ["a", "b"] freshWorld3 5

/-- Proposer one then runs a complete propose_value with proposal 10,
reaching a and b in both phases (node c is down for it). -/
def duelRival :=
  proposeValue (paxosMajority clusterABC) ["a", "b"] ["a", "b"] duelPrep.1 10 (.str "v1")

/-- Proposer two resumes its propose_value after the prepare gather, with
all three nodes reachable in its accept phase. -/
def duelResume :=
  proposeAfterPrepare (paxosMajority clusterABC) ["a", "b", "c"] duelRival.1 5
    duelPrep.2 (.str "v2")

/-- Quorum-counting scenario: proposer Y prepares proposal 5 at all three
nodes, a rival prepare with proposal 50 then raises the promised id at a
and b, and Y resumes with its accept phase. -/
def quorumPrep := sendPrepare ["a", "b", "c"] freshWorld3 5

def quorumRival := sendPrepare ["a", "b"] quorumPrep.1 50

def quorumAccepts := sendAccept ["a", "b", "c"] quorumRival.1 5 (.str "vY")

def quorumOutcome :=
  proposeAfterPrepare (paxosMajority clusterABC) ["a", "b", "c"] quorumRival.1 5
    quorumPrep.2 (.str "vY")

/-- The number of replies in an acceptance list that are not the rejection
sentinel (handle accept marks a rejection with accepted_id = -1 and a
genuine acceptance leaves the field at None). -/
def genuineAcceptances (ms : List PaxosMessage) : Nat :=
  (ms.filter (fun m => m.acceptedId != some ((-1 : Int)))).length

/-- Two consecutive proposal ids issued at the same wall-clock millisecond,
then one after a backwards clock step, on a three-node cluster whose node
hash is 7. -/
def proposalIdFirst := generateProposalId 3 7 1000 0

def proposalIdSecond := generateProposalId 3 7 1000 proposalIdFirst.2

def proposalIdRegressed := generateProposalId 3 7 999 proposalIdSecond.2

/-- The coordinator tables exactly as initialize demo agents (lines
253-268) leaves them on a node named node-1: every value of self.agents is
a list of agent ids keyed by specialization. -/
def demoState : CoordState :=
  { nodeId := "node-1",
    agents := [("support", .ids ["node-1"]), ("sales", .ids ["node-1"]),
               ("general", .ids ["node-1"])],
    agentHealth := [("node-1",
      { lastHeartbeat := 0, status := some "healthy",
        specializations := ["support", "sales", "general"],
        load := some (1 / 10) })],
    conversations := [] }

/-- Node A's view in the dueling-assign scenario: both nodes healthy for
the general specialization, A with the lower load. -/
def duelStateA : CoordState :=
  { nodeId := "A",
    agents := [("general", .ids ["A", "B"])],
    agentHealth := [("A", { status := some "healthy", load := some (1 / 10) }),
                    ("B", { status := some "healthy", load := some (2 / 10) })],
    conversations := [] }

/-- Node B's view in the same scenario: B with the lower load. -/
def duelStateB : CoordState :=
  { nodeId := "B",
    agents := [("general", .ids ["A", "B"])],
    agentHealth := [("A", { status := some "healthy", load := some (2 / 10) }),
                    ("B", { status := some "healthy", load := some (1 / 10) })],
    conversations := [] }

/-- A ConversationState pushed by a peer, version 1, for a thread the
receiver has never seen. -/
def pushedState : ConversationState :=
  { threadId := "t9", assignedAgent := "B", context := [], lastUpdated := 0,
    version := 1, replicas := ["B"] }

/-- The StateSync push carrying it, as built by replicate state
(lines 398-404). -/
def stateSyncMsg : PaxosMessage :=
  { msgType := .stateSync, proposalId := 0, value := some (.conv pushedState) }

/-- A peer-health entry for a suspected peer whose heartbeat arrived five
seconds ago, within the twenty-second window. -/
def suspectedEntry : HealthEntry :=
  { lastHeartbeat := 95, status := some "suspected", load := some (1 / 10),
    failureCount := 1 }

/-- Demo tables with the health table empty, so no candidate is healthy. -/
def noCandidateState : CoordState :=
  { nodeId := "node-1",
    agents := [("support", .ids ["node-1"]), ("sales", .ids ["node-1"]),
               ("general", .ids ["node-1"])],
    agentHealth := [],
    conversations := [] }

/-- A coordinator state whose agents table holds only AgentInfo records, so
that replica selection completes: one registered healthy node and an
existing version-1 entry for thread t1. -/
def infoOnlyState : CoordState :=
  { nodeId := "n1",
    agents := [("n1", .info { nodeId := "n1", status := .healthy })],
    agentHealth := [],
    conversations := [("t1",
      { threadId := "t1", assignedAgent := "n1", context := [], lastUpdated := 0,
        version := 1, replicas := ["n1"] })] }

/-- The same state after the upsert of thread t1 at time 5. -/
def infoOnlyUpserted : CoordState :=
  { nodeId := "n1",
    agents := [("n1", .info { nodeId := "n1", status := .healthy })],
    agentHealth := [],
    conversations := [("t1",
      { threadId := "t1", assignedAgent := "n1",
        context := [("email_content", "x")], lastUpdated := 5,
        version := 2, replicas := ["n1"] })] }

/-! ## Helper lemmas -/

theorem lookupA_insertA_self {α : Type} (k : String) (v : α) (l : List (String × α)) :
    lookupA k (insertA k v l) = some v := by
  induction l with
  | nil => simp [insertA, lookupA]
  | cons hd tl ih =>
    obtain ⟨k1, v1⟩ := hd
    by_cases h : k1 = k
    · simp [insertA, lookupA, h]
    · simp [insertA, lookupA, h, ih]

/-! ## Claim theorems -/

/-- C1: the claim states that any two successful propose_value calls on the
same instance return equal decided values. This is false of the code: in
the dueling-proposers interleaving above, with at least a majority of the
three nodes reachable to each proposer in every phase, proposer one's call
returns success with value v1 while proposer two's call returns success
with value v2, because handle accept encodes its rejection as an
ACCEPTED-typed message and send accept counts such rejections toward the
acceptance quorum. -/
theorem consensus_safety_two_values_decided :
    duelRival.2 = .ok (true, some (.str "v1")) ∧
    duelResume.2 = .ok (true, some (.str "v2")) := by decide

/-- C3: the claim states that consecutive proposal ids issued by one node
are strictly increasing even when the clock ties or regresses. This is
false of the code: generate proposal id recomputes the id from the wall
clock alone, so two calls in the same millisecond issue equal ids, and a
backwards clock step issues a smaller id. -/
theorem proposal_id_not_monotone_on_clock_tie :
    proposalIdFirst.1 = 3001 ∧ proposalIdSecond.1 = 3001 ∧
    ¬ proposalIdFirst.1 < proposalIdSecond.1 ∧
    proposalIdRegressed.1 < proposalIdSecond.1 := by decide

/-- C4: the claim states that propose_value fails unless each phase gathers
a quorum of positive responses, rejections never counting. This is false of
the code: in the scenario above, proposer Y's accept phase receives exactly
one genuine acceptance (from node c) and two rejection replies carrying the
accepted_id = -1 sentinel, yet the call returns success because all three
replies carry msg_type ACCEPTED and the length check counts them all. -/
theorem accept_quorum_counts_rejections :
    quorumOutcome.2 = .ok (true, some (.str "vY")) ∧
    genuineAcceptances quorumAccepts.2 = 1 ∧
    paxosMajority clusterABC = 2 := by decide

/-- C2: the claim states that a successful assign returns the value decided
by the consensus engine, adopting another proposer's decided value when one
was decided. This is false of the code: assign agent for email never
invokes propose_value (the embedded function takes no consensus state at
all, mirroring line 304, which sets assigned_agent to the locally selected
candidate), so dueling dispatchers select their own distinct local
candidates; moreover neither call returns at all, because every call with a
non-empty candidate set raises AttributeError in replica selection. -/
theorem assign_skips_consensus :
    selectBestAgent duelStateA ["A", "B"] = some "A" ∧
    selectBestAgent duelStateB ["A", "B"] = some "B" ∧
    assignAgentForEmail 3 duelStateA "t1" "hi" "s" 0 = .error .attributeError ∧
    assignAgentForEmail 3 duelStateB "t1" "hi" "s" 0 = .error .attributeError := by
  decide

/-- C5: update conversation state stores, for the upserted thread, a state
whose version is the old version plus one when an entry existed and one
otherwise, and in particular strictly above any version previously held for
that thread, whenever the upsert completes. -/
theorem upsert_version_increment (rf : Int) (st : CoordState)
    (threadId agentId : String) (ctx : List (String × String)) (now : Rat)
    (st1 : CoordState)
    (h : updateConversationState rf st threadId agentId ctx now = .ok st1) :
    ∃ s1, lookupA threadId st1.conversations = some s1 ∧
      s1.version = (match lookupA threadId st.conversations with
                    | some old => old.version + 1
                    | none => 1) ∧
      ∀ old, lookupA threadId st.conversations = some old →
        old.version < s1.version := by
  unfold updateConversationState at h
  cases hsel : selectReplicaNodes st rf with
  | error e => rw [hsel] at h; exact absurd h (by simp)
  | ok reps =>
    rw [hsel] at h
    simp only [Except.ok.injEq] at h
    subst h
    refine ⟨_, lookupA_insertA_self _ _ _, rfl, ?_⟩
    intro old hold
    simp only [hold]
    omega

/-- Witness for C5 at a concrete input: upserting thread t1 over an
existing version-1 entry yields the stored version 2. -/
theorem upsert_version_increment_witness :
    ∃ s1, lookupA "t1" infoOnlyUpserted.conversations = some s1 ∧
      s1.version = (match lookupA "t1" infoOnlyState.conversations with
                    | some old => old.version + 1
                    | none => 1) ∧
      ∀ old, lookupA "t1" infoOnlyState.conversations = some old →
        old.version < s1.version :=
  upsert_version_increment 3 infoOnlyState "t1" "n1" [("email_content", "x")] 5
    infoOnlyUpserted (by decide)

/-- C6: the claim states that a received StateSync push is installed into
the local store iff its version is strictly greater than the local one, in
particular when no local entry exists. This is false of the code: the
/paxos endpoint hands every message to handle_paxos_message, which
dispatches only PREPARE and ACCEPT, so a STATE_SYNC push carrying a
version-1 state for a thread the receiver has never seen returns None and
leaves the empty store unchanged. -/
theorem state_sync_push_ignored :
    receivePaxos initialAcceptor [] stateSyncMsg = ((initialAcceptor, []), none) := by
  decide

/-- C7 counterexample: the claim states that a SUSPECTED peer with a fresh
heartbeat transitions to RECOVERING and never directly to HEALTHY, yet the
detector maps a suspected entry with a heartbeat five seconds old straight
to status healthy. -/
theorem detector_skips_recovering :
    (checkHealthEntry 10 3 100 suspectedEntry).status = some "healthy" ∧
    (checkHealthEntry 10 3 100 suspectedEntry).status ≠ some "recovering" := by
  decide

/-- C7 amended: when a heartbeat has arrived within the window and the
failure count is positive, the detector resets the failure count to 0 and
sets the status directly to HEALTHY, with no RECOVERING stage. -/
theorem heartbeat_within_window_resets (interval threshold : Nat) (now : Rat)
    (e : HealthEntry)
    (hwin : now - e.lastHeartbeat ≤ 2 * (interval : Rat))
    (hfc : 0 < e.failureCount) :
    checkHealthEntry interval threshold now e =
      { e with failureCount := 0, status := some "healthy" } := by
  unfold checkHealthEntry
  rw [if_neg (not_lt.mpr hwin), if_pos hfc]

/-- Witness for the amended C7 at the suspected entry above. -/
theorem heartbeat_within_window_resets_witness :
    checkHealthEntry 10 3 100 suspectedEntry =
      { suspectedEntry with failureCount := 0, status := some "healthy" } :=
  heartbeat_within_window_resets 10 3 100 suspectedEntry
    (by norm_num [suspectedEntry]) (by norm_num [suspectedEntry])

/-- C8: when the candidate set for the classified specialization is empty,
assign agent for email returns its failure value (Python None, the sole
failure return of the function) and the entire coordinator state, the
conversation store included, is unchanged. -/
theorem assign_no_candidate (rf : Int) (st : CoordState)
    (threadId content sender : String) (now : Rat)
    (h : getAvailableAgents st (classifyEmail content sender) = .ok []) :
    assignAgentForEmail rf st threadId content sender now = .ok (none, st) := by
  simp only [assignAgentForEmail, h]

/-- Witness for C8: with an empty health table no candidate is healthy, and
assign returns the failure value with the state intact. -/
theorem assign_no_candidate_witness :
    assignAgentForEmail 3 noCandidateState "t0" "hello" "s" 0 =
      .ok (none, noCandidateState) :=
  assign_no_candidate 3 noCandidateState "t0" "hello" "s" 0 (by decide)

/-- C9: the claim states that every upsert stores a replica set containing
the local node, of size at most the replication factor, deterministic in
the thread id and healthy-peer set. This is false of the code: on the
tables that initialize demo agents installs, select replica nodes raises
AttributeError (it reads a status attribute on the list-valued entries of
self.agents), so the upsert aborts and no replica set is ever stored. -/
theorem replica_selection_raises :
    selectReplicaNodes demoState 3 = .error .attributeError ∧
    updateConversationState 3 demoState "t1" "node-1" [] 0 =
      .error .attributeError := by
  decide

/-- C10: the claim states that every successful assign bumps the assigned
agent's stored load by exactly 0.1. This is vacuous of the code as written:
on the demo tables the call raises AttributeError inside the conversation
state update, before the load bump at lines 315-319 is reached, so no call
to assign agent for email ever succeeds. -/
theorem assign_crashes_before_load_update :
    assignAgentForEmail 3 demoState "t1" "hello there" "user" 0 =
      .error .attributeError := by
  decide

end AgentMail
